import Mathlib

set_option autoImplicit false

namespace BrotherQL

/-!
Shallow embedding of the Brother QL Home Assistant integration, covering:
* `src/custom_components/brother_ql/api/client.py` — exception taxonomy,
  `_verify_response_or_raise`, `_api_wrapper`, and the form payload built by
  `async_print_text`;
* `src/custom_components/ha_integration_domain/coordinator/base.py` —
  `BrotherQLDataUpdateCoordinator._async_update_data`;
* `src/custom_components/brother_ql/service_actions/print_label.py` — the
  print-text handler's HTTP-400 suppression and the font-size service actions;
* `src/custom_components/brother_ql/switch/treat_400_as_success.py` — the
  switch's `is_on` property;
* `src/custom_components/brother_ql/const.py` — the font-size constants.
-/

/-- JSON values, used both for bodies parsed by `response.json()` (performed by
the external aiohttp library) and for the synthetic success record the client
builds for non-JSON bodies. -/
inductive JsonVal where
  | null
  | bool (b : Bool)
  | num (n : Int)
  | str (s : String)
  | arr (elems : List JsonVal)
  | obj (fields : List (String × JsonVal))
  deriving Repr

/-- An HTTP response as observed by `_api_wrapper` (client.py lines 308-322):
its status code, the value of its Content-Type header (empty string when the
header is absent, matching `response.headers.get("Content-Type", "")`), the
text of its body (`await response.text()`), and the value `await
response.json()` would produce for it (JSON parsing itself is done by the
external aiohttp library, so it is an oracle field here). -/
structure Response where
  status : Nat
  contentType : String
  text : String
  jsonBody : JsonVal
  deriving Repr

/-- The `__cause__` attached to a wrapped integration exception by the
`raise ... from exception` statements in client.py lines 330-338.
`clientResponseError` is the `aiohttp.ClientResponseError` raised by
`response.raise_for_status()`, carrying the response status. -/
inductive Cause where
  | clientResponseError (status : Nat)
  | timeoutError (msg : String)
  | transportError (msg : String)
  | otherError (msg : String)
  deriving Repr, DecidableEq

/-- The client exception taxonomy of client.py lines 22-31:
`BrotherQLApiClientAuthenticationError` (raised with a message, no cause),
`BrotherQLApiClientCommunicationError` and the base `BrotherQLApiClientError`
(both raised `from` an original exception, kept here as the cause). -/
inductive ApiError where
  | authentication (msg : String)
  | communication (cause : Cause)
  | generic (cause : Cause)
  deriving Repr, DecidableEq

/-- True exactly on `BrotherQLApiClientAuthenticationError`. -/
def ApiError.isAuth : ApiError → Bool
  | .authentication _ => true
  | _ => false

/-- Outcome of the `self._session.request(...)` call in client.py line 308:
either an HTTP response, or one of the transport-level exceptions caught at
lines 330-338 (`TimeoutError`; `aiohttp.ClientError` / `socket.gaierror`;
any other unexpected exception). -/
inductive Transport where
  | response (r : Response)
  | timeout (msg : String)
  | clientError (msg : String)
  | unexpected (msg : String)
  deriving Repr

/-- What `_verify_response_or_raise` (client.py lines 34-51) can raise:
the authentication error for 401/403, or the `aiohttp.ClientResponseError`
raised by `response.raise_for_status()`. -/
inductive VerifyError where
  | authError (msg : String)
  | responseError (status : Nat)
  deriving Repr, DecidableEq

/-- Embedding of `_verify_response_or_raise` (client.py lines 34-51).
The 401/403 check comes first; `response.raise_for_status()` raises an
`aiohttp.ClientResponseError` exactly when the response is not "ok", and
aiohttp defines ok as `400 > status`, so only statuses at or above 400 raise. -/
def verifyResponseOrRaise (r : Response) : Except VerifyError Unit :=
  if r.status = 401 ∨ r.status = 403 then
    Except.error (VerifyError.authError "Invalid credentials")
  else if r.status < 400 then
    Except.ok ()
  else
    Except.error (VerifyError.responseError r.status)

/-- Whether a pattern character list occurs contiguously in a haystack
character list: at the front, or anywhere in the tail. -/
def charListContains (pat : List Char) : List Char → Bool
  | [] => pat.isEmpty
  | c :: rest => List.isPrefixOf pat (c :: rest) || charListContains pat rest

/-- Python's `pat in s` substring test on strings. -/
def strContains (s pat : String) : Bool :=
  charListContains pat.toList s.toList

/-- Embedding of `_api_wrapper` (client.py lines 265-338) given the outcome of
the session request. Control flow of the Python `try` block:
* `_verify_response_or_raise` raising the authentication error is re-raised
  unchanged by the handler at lines 324-326;
* the `aiohttp.ClientResponseError` from `raise_for_status()` is a subclass of
  `aiohttp.ClientError`, so it is caught at line 333 and wrapped into a
  communication error `from` the original (the cause keeps the status);
* a timeout becomes a communication error, any other `aiohttp.ClientError` /
  `socket.gaierror` becomes a communication error, anything else becomes the
  generic error (lines 330-338);
* an accepted response returns the parsed JSON body when the Content-Type
  contains `application/json`, else the synthetic record
  `\x7b"status": "success", "message": text\x7d` when the text body is
  non-empty, else Python `None` (lines 316-322), modelled as `Option JsonVal`. -/
def apiWrapper (t : Transport) : Except ApiError (Option JsonVal) :=
  match t with
  | .timeout msg =>
      Except.error (ApiError.communication (Cause.timeoutError msg))
  | .clientError msg =>
      Except.error (ApiError.communication (Cause.transportError msg))
  | .unexpected msg =>
      Except.error (ApiError.generic (Cause.otherError msg))
  | .response r =>
      match verifyResponseOrRaise r with
      | Except.error (VerifyError.authError msg) =>
          Except.error (ApiError.authentication msg)
      | Except.error (VerifyError.responseError s) =>
          Except.error (ApiError.communication (Cause.clientResponseError s))
      | Except.ok () =>
          if strContains r.contentType "application/json" then
            Except.ok (some r.jsonBody)
          else if r.text = "" then
            Except.ok none
          else
            Except.ok (some (JsonVal.obj
              [("status", JsonVal.str "success"), ("message", JsonVal.str r.text)]))

/-- The text object built by `async_print_text` (client.py lines 142-151):
field names and order follow the Python dict literal. -/
structure TextObject where
  font : String
  size : String
  inverted : Bool
  todo : Bool
  align : String
  line_spacing : String
  color : String
  text : String
  deriving Repr, DecidableEq

/-- One lowercase hex digit group of four for a `\uXXXX` escape, most
significant digit first, as produced by Python's JSON encoder. -/
def hex4 (n : Nat) : String :=
  String.mk [Nat.digitChar (n / 4096 % 16), Nat.digitChar (n / 256 % 16),
    Nat.digitChar (n / 16 % 16), Nat.digitChar (n % 16)]

/-- Escaping of one character by `json.dumps` with its default
`ensure_ascii=True`: backslash and double quote get a backslash escape, the
named control escapes are used for backspace, tab, newline, form feed and
carriage return, every other character outside the printable ASCII range
0x20-0x7e becomes `\uXXXX` (a surrogate pair above 0xffff). -/
def jsonEscapeChar (c : Char) : String :=
  if c = '"' then "\\\""
  else if c = '\\' then "\\\\"
  else if c = '\n' then "\\n"
  else if c = '\r' then "\\r"
  else if c = '\t' then "\\t"
  else if c.toNat = 8 then "\\b"
  else if c.toNat = 12 then "\\f"
  else if c.toNat < 32 ∨ c.toNat > 126 then
    if c.toNat ≥ 65536 then
      "\\u" ++ hex4 (55296 + (c.toNat - 65536) / 1024)
        ++ "\\u" ++ hex4 (56320 + (c.toNat - 65536) % 1024)
    else
      "\\u" ++ hex4 c.toNat
  else
    String.singleton c

/-- A Python string rendered as a JSON string literal by `json.dumps`. -/
def pyJsonStr (s : String) : String :=
  "\"" ++ String.join (s.toList.map jsonEscapeChar) ++ "\""

/-- `json.dumps([text_object])` for the single-element list built at
client.py line 152, with `json.dumps`'s default separators (commaspace and
colonspace) and the key order of the dict literal at lines 142-151. -/
def jsonDumpsTextArray (o : TextObject) : String :=
  "[\x7b\"font\": " ++ pyJsonStr o.font
    ++ ", \"size\": " ++ pyJsonStr o.size
    ++ ", \"inverted\": " ++ (if o.inverted then "true" else "false")
    ++ ", \"todo\": " ++ (if o.todo then "true" else "false")
    ++ ", \"align\": " ++ pyJsonStr o.align
    ++ ", \"line_spacing\": " ++ pyJsonStr o.line_spacing
    ++ ", \"color\": " ++ pyJsonStr o.color
    ++ ", \"text\": " ++ pyJsonStr o.text
    ++ "\x7d]"

/-- The text object of client.py lines 142-151 as a function of the
`async_print_text` arguments: `size` is `str(font_size)`, `inverted` and
`todo` are the literals `False`, `color` is the literal `"black"`. -/
def mkTextObject (text : String) (fontSize : Int)
    (fontFamily alignment lineSpacing : String) : TextObject :=
  ⟨fontFamily, toString fontSize, false, false, alignment, lineSpacing, "black", text⟩

/-- `kwargs.get(key, default)` for the keyword arguments of
`async_print_text`, modelled as an association list of strings. -/
def kwargsGet (kwargs : List (String × String)) (key dflt : String) : String :=
  match kwargs.lookup key with
  | some v => v
  | none => dflt

/-- The form-data dict built by `async_print_text` (client.py lines 154-180)
as an association list in the insertion order of the Python dict literal.
The Python signature defaults are `font_size=100`,
`font_family="DejaVu Math TeX Gyre,Regular"`, `alignment="center"`,
`line_spacing="100"`; they are passed explicitly here. -/
def asyncPrintTextData (text : String) (fontSize : Int)
    (fontFamily alignment lineSpacing : String)
    (kwargs : List (String × String)) : List (String × String) :=
  let formattedText :=
    jsonDumpsTextArray (mkTextObject text fontSize fontFamily alignment lineSpacing)
  [("text", formattedText),
   ("label_size", kwargsGet kwargs "label_size" "17x54"),
   ("orientation", kwargsGet kwargs "orientation" "standard"),
   ("margin_top", kwargsGet kwargs "margin_top" "24"),
   ("margin_bottom", kwargsGet kwargs "margin_bottom" "24"),
   ("margin_left", kwargsGet kwargs "margin_left" "35"),
   ("margin_right", kwargsGet kwargs "margin_right" "35"),
   ("print_type", kwargsGet kwargs "print_type" "text"),
   ("barcode_type", kwargsGet kwargs "barcode_type" "QR"),
   ("qrcode_size", kwargsGet kwargs "qrcode_size" "10"),
   ("qrcode_correction", kwargsGet kwargs "qrcode_correction" "L"),
   ("image_bw_threshold", kwargsGet kwargs "image_bw_threshold" "70"),
   ("image_mode", kwargsGet kwargs "image_mode" "grayscale"),
   ("image_fit", kwargsGet kwargs "image_fit" "1"),
   ("print_count", kwargsGet kwargs "print_count" "1"),
   ("log_level", kwargsGet kwargs "log_level" "WARNING"),
   ("cut_once", kwargsGet kwargs "cut_once" "0"),
   ("border_thickness", kwargsGet kwargs "border_thickness" "0"),
   ("border_roundness", kwargsGet kwargs "border_roundness" "0"),
   ("border_distance_x", kwargsGet kwargs "border_distance_x" "0"),
   ("border_distance_y", kwargsGet kwargs "border_distance_y" "0"),
   ("high_res", kwargsGet kwargs "high_res" "0"),
   ("image_scaling_factor", kwargsGet kwargs "image_scaling_factor" "100"),
   ("image_rotation", kwargsGet kwargs "image_rotation" "0")]

/-- A value stored in the config entry's options dictionary (booleans such as
`treat_400_as_success`, integers such as the font sizes, strings such as
`label_size`). -/
inductive OptVal where
  | bool (b : Bool)
  | int (n : Int)
  | str (s : String)
  deriving Repr, DecidableEq

/-- The config entry's options dictionary, keyed by option name. -/
abbrev Options := List (String × OptVal)

/-- Python truthiness of a stored option value, as applied by
`if treat_400_as_success and is_400_error` in print_label.py line 101. -/
def pyTruthy : OptVal → Bool
  | .bool b => b
  | .int n => decide (n ≠ 0)
  | .str s => decide (s ≠ "")

/-- `entry.options.get("treat_400_as_success", True)` as evaluated by the
print handlers (print_label.py lines 80 and 231). -/
def treat400Setting (opts : Options) : OptVal :=
  match opts.lookup "treat_400_as_success" with
  | some v => v
  | none => .bool true

/-- The switch's `is_on` property
(switch/treat_400_as_success.py lines 39-42):
`self._entry.options.get("treat_400_as_success", True)`. -/
def switchIsOn (opts : Options) : OptVal :=
  match opts.lookup "treat_400_as_success" with
  | some v => v
  | none => .bool true

/-- The 400-detection of print_label.py lines 85-99 applied to an exception
raised by the API client. The first Python branch (the exception itself being
an `aiohttp.ClientResponseError`) can never fire for a client exception, since
`_api_wrapper` always wraps that type; the second branch checks a
communication error whose `__cause__` is a `ClientResponseError` with status
400; the fallback branch checks any other exception's `__cause__` the same
way (the authentication error is raised without a cause). -/
def is400Error (e : ApiError) : Bool :=
  match e with
  | .authentication _ => false
  | .communication (Cause.clientResponseError 400) => true
  | .communication _ => false
  | .generic (Cause.clientResponseError 400) => true
  | .generic _ => false

/-- Outcome of a print service-action handler. -/
inductive HandlerResult where
  | success
  | valueError (msg : String)
  | raised (e : ApiError)
  deriving Repr, DecidableEq

/-- Embedding of `async_handle_print_text` (print_label.py lines 25-109).
The handler first requires a non-empty text (`if not text` at line 43).
The arguments of the client call are resolved from the service call data and
the options (lines 48-75) and do not influence the except-clause logic, so
the outcome of the `client.async_print_text` call is taken as the `res`
parameter. On an exception the handler suppresses it exactly when
`options.get("treat_400_as_success", True)` is truthy and the 400-detection
fires (lines 78-109); otherwise the exception is re-raised. -/
def asyncHandlePrintText (opts : Options) (text : String)
    (res : Except ApiError (Option JsonVal)) : HandlerResult :=
  if text = "" then
    .valueError "Text parameter is required"
  else
    match res with
    | Except.ok _ => .success
    | Except.error e =>
        if pyTruthy (treat400Setting opts) && is400Error e then .success
        else .raised e

/-- `DEFAULT_FONT_SIZE` (const.py line 20). -/
def DEFAULT_FONT_SIZE : Int := 50

/-- `GOOBER_FONT_SIZE` (const.py line 21). -/
def GOOBER_FONT_SIZE : Int := 20

/-- Update one key of the options dictionary, keeping the position of an
existing key and appending a new key at the end, as a Python dict does. -/
def setOption : Options → String → OptVal → Options
  | [], key, v => [(key, v)]
  | (k, w) :: rest, key, v =>
      if k = key then (k, v) :: rest else (k, w) :: setOption rest key v

/-- `str.lower()` as used on the preset names (print_label.py line 367),
modelled character-wise with ASCII lowercasing; the preset names compared
against are ASCII. -/
def pyLower (s : String) : String :=
  String.mk (s.toList.map Char.toLower)

/-- Whether a character is an ASCII decimal digit. -/
def isAsciiDigit (c : Char) : Bool :=
  decide ('0' ≤ c ∧ c ≤ '9')

/-- The numeric value of a list of ASCII decimal digits. -/
def digitsToNat (cs : List Char) : Nat :=
  cs.foldl (fun acc c => 10 * acc + (c.toNat - 48)) 0

/-- The whitespace characters stripped by Python's `int` before parsing a
string: space, tab, newline, carriage return, vertical tab, form feed. -/
def isPyWhitespace (c : Char) : Bool :=
  c = ' ' || c = '\t' || c = '\n' || c = '\r' || c.toNat = 11 || c.toNat = 12

/-- Python's `int(s)` on a string: strip surrounding whitespace, allow one
optional sign, then require at least one decimal digit; `none` models the
`ValueError` that Python raises otherwise. (Python additionally accepts
underscore digit separators and non-ASCII decimal digits; such strings are
left to `none` here, which only narrows the set of accepted inputs.) -/
def pyIntParse (s : String) : Option Int :=
  let t := (((s.toList.dropWhile isPyWhitespace).reverse.dropWhile isPyWhitespace).reverse)
  match t with
  | [] => none
  | c :: rest =>
      let signed : Int × List Char :=
        if c = '-' then (-1, rest) else if c = '+' then (1, rest) else (1, t)
      if signed.2 ≠ [] ∧ signed.2.all isAsciiDigit then
        some (signed.1 * (digitsToNat signed.2 : Int))
      else
        none

/-- `int(font_size)` applied to a value read from the options store
(print_label.py line 387): already an int stays itself, a bool becomes 0 or
1, a string goes through the string parse. -/
def pyIntOfOptVal : OptVal → Option Int
  | .int n => some n
  | .bool b => some (if b then 1 else 0)
  | .str s => pyIntParse s

/-- Embedding of `async_handle_set_font_size` (print_label.py lines 285-314):
a missing `font_size` parameter raises a `ValueError`; otherwise
`options["current_font_size"] = int(font_size)` is stored with no range
check. An `.error` result means the handler raised before
`async_update_entry`, so the stored options are left untouched. -/
def setFontSize (opts : Options) (fontSize : Option Int) : Except String Options :=
  match fontSize with
  | none => Except.error "Font size parameter is required"
  | some n => Except.ok (setOption opts "current_font_size" (.int n))

/-- Embedding of `async_handle_set_font_size_preset`
(print_label.py lines 346-393). A missing or empty preset raises
(`if not preset`); `preset.lower()` selects the goober or default branch,
which read `goober_font_size` / `default_font_size` from the options with the
const.py defaults and perform no range check; any other preset is parsed with
`int(preset)` and range-checked against 10..500 before being stored. The
stored update is `options["current_font_size"] = int(font_size)`; an
`.error` result means the handler raised before `async_update_entry`, so the
stored options are left untouched. -/
def setFontSizePreset (opts : Options) (preset : Option String) : Except String Options :=
  match preset with
  | none => Except.error "Preset parameter is required"
  | some p =>
      if p = "" then Except.error "Preset parameter is required"
      else
        let presetLower := pyLower p
        if presetLower = "goober" then
          match pyIntOfOptVal ((opts.lookup "goober_font_size").getD (.int GOOBER_FONT_SIZE)) with
          | some n => Except.ok (setOption opts "current_font_size" (.int n))
          | none => Except.error "invalid literal for int() with base 10"
        else if presetLower = "default" then
          match pyIntOfOptVal ((opts.lookup "default_font_size").getD (.int DEFAULT_FONT_SIZE)) with
          | some n => Except.ok (setOption opts "current_font_size" (.int n))
          | none => Except.error "invalid literal for int() with base 10"
        else
          match pyIntParse p with
          | none => Except.error ("Invalid preset value: " ++ p)
          | some n =>
              if n < 10 ∨ 500 < n then
                Except.error ("Font size must be between 10 and 500, got " ++ toString n)
              else
                Except.ok (setOption opts "current_font_size" (.int n))

/-- The signals `_async_update_data` can raise to the host framework
(coordinator/base.py lines 101-112). -/
inductive CoordSignal where
  | configEntryAuthFailed
  | updateFailed
  deriving Repr, DecidableEq

/-- Embedding of `BrotherQLDataUpdateCoordinator._async_update_data`
(coordinator/base.py lines 69-112) given the outcome of
`client.async_get_status()`: a successful status value is returned as is; a
`BrotherQLApiClientAuthenticationError` is converted to
`ConfigEntryAuthFailed`; any other `BrotherQLApiClientError` (the base class
caught at line 107 covers the communication and generic errors) is converted
to `UpdateFailed`. -/
def asyncUpdateData (res : Except ApiError (Option JsonVal)) :
    Except CoordSignal (Option JsonVal) :=
  match res with
  | Except.ok v => Except.ok v
  | Except.error (ApiError.authentication _) =>
      Except.error CoordSignal.configEntryAuthFailed
  | Except.error _ => Except.error CoordSignal.updateFailed

/-- The coordinator state held by the host framework: `data` is the stored
snapshot (`none` while no refresh has succeeded; the inner `Option` is the
Python value returned by `async_get_status`, which can itself be `None`),
and `lastException` records the failure of the most recent refresh. -/
structure CoordState where
  data : Option (Option JsonVal)
  lastException : Option CoordSignal
  deriving Repr

/-- Modelled from the spec: the host framework's `DataUpdateCoordinator`
(`homeassistant.helpers.update_coordinator`, an external collaborator not in
this repository) runs `_async_update_data` on each scheduled refresh, stores
the returned value as its `data` and clears the failure state on success,
and on `UpdateFailed` or `ConfigEntryAuthFailed` records the failure while
keeping the previously held `data` unchanged (spec sections 4.2 and 7:
last-known-value semantics). -/
def coordinatorRefresh (st : CoordState) (res : Except ApiError (Option JsonVal)) :
    CoordState :=
  match asyncUpdateData res with
  | Except.ok v => ⟨some v, none⟩
  | Except.error sig => ⟨st.data, some sig⟩

/-- The coordinator state before any refresh: no data, no failure. -/
def initialCoordState : CoordState := ⟨none, none⟩

/-- A sequence of scheduled polls, each feeding the outcome of one
`async_get_status()` call to the coordinator (spec section 4.2: polls are
sequential and non-overlapping). -/
def runPolls (st : CoordState) (results : List (Except ApiError (Option JsonVal))) :
    CoordState :=
  results.foldl coordinatorRefresh st

/-- Lookup in a JSON object's field list. -/
def jsonLookup (fields : List (String × JsonVal)) (key : String) : Option JsonVal :=
  fields.lookup key

/-- Whether an optional JSON value is present and a string. -/
def isStrVal : Option JsonVal → Bool
  | some (JsonVal.str _) => true
  | _ => false

/-- Whether an optional JSON value is present and a boolean. -/
def isBoolVal : Option JsonVal → Bool
  | some (JsonVal.bool _) => true
  | _ => false

/-- The fully-formed status snapshot shape of spec section 3: a dictionary
with a string `status`, a `printer` dictionary holding a string `model` and a
boolean `connected`, and a `last_print` key. -/
def statusShape (v : JsonVal) : Bool :=
  match v with
  | JsonVal.obj fields =>
      isStrVal (jsonLookup fields "status")
      && (match jsonLookup fields "printer" with
          | some (JsonVal.obj p) =>
              isStrVal (jsonLookup p "model") && isBoolVal (jsonLookup p "connected")
          | _ => false)
      && (jsonLookup fields "last_print").isSome
  | _ => false

/-- Claim C1: for every HTTP response with status 401 or 403, `_api_wrapper`
raises `BrotherQLApiClientAuthenticationError`, regardless of the response
body and Content-Type, and this takes precedence over the generic HTTP-status
check (which a status of 401 or 403 would also trigger, both being at least
400). -/
theorem c1_auth_error_for_401_403 (r : Response)
    (h : r.status = 401 ∨ r.status = 403) :
    apiWrapper (Transport.response r) =
      Except.error (ApiError.authentication "Invalid credentials") := by
  simp only [apiWrapper, verifyResponseOrRaise]
  rw [if_pos h]

/-- Claim C1 witness: a 401 response with an arbitrary HTML body is rejected
with the authentication error. -/
theorem c1_witness :
    ((401 : Nat) = 401 ∨ (401 : Nat) = 403) ∧
      apiWrapper (Transport.response ⟨401, "text/html", "nothing here", JsonVal.null⟩) =
        Except.error (ApiError.authentication "Invalid credentials") :=
  ⟨Or.inl rfl,
    c1_auth_error_for_401_403 ⟨401, "text/html", "nothing here", JsonVal.null⟩ (Or.inl rfl)⟩

/-- Claim C2 counterexample: status 304 is not 2xx and not 401/403, yet
`_api_wrapper` returns a value instead of raising: `raise_for_status()` only
raises for statuses at or above 400, so a 304 response with an empty body
yields Python `None`. -/
theorem c2_counterexample :
    (¬ (200 ≤ (304 : Nat) ∧ (304 : Nat) ≤ 299)) ∧ (304 : Nat) ≠ 401 ∧ (304 : Nat) ≠ 403 ∧
      apiWrapper (Transport.response ⟨304, "", "", JsonVal.null⟩) = Except.ok none :=
  ⟨by decide, by decide, by decide, rfl⟩

/-- Claim C2 (amended): for every HTTP response whose status is at least 400
and is not 401/403, `_api_wrapper` raises
`BrotherQLApiClientCommunicationError` via the HTTP-status check
(`raise_for_status()` raises an `aiohttp.ClientResponseError`, which the
`aiohttp.ClientError` handler wraps into the communication error); statuses
below 400 pass the status check. -/
theorem c2_amended_http_status_check (r : Response)
    (h400 : 400 ≤ r.status) (h401 : r.status ≠ 401) (h403 : r.status ≠ 403) :
    apiWrapper (Transport.response r) =
      Except.error (ApiError.communication (Cause.clientResponseError r.status)) := by
  have hor : ¬ (r.status = 401 ∨ r.status = 403) := by
    rintro (h | h)
    exacts [h401 h, h403 h]
  have hlt : ¬ r.status < 400 := by omega
  simp only [apiWrapper, verifyResponseOrRaise]
  rw [if_neg hor, if_neg hlt]

/-- Claim C2 (amended) witness: a 500 response is rejected with the
communication error carrying the causal status. -/
theorem c2_witness :
    apiWrapper (Transport.response ⟨500, "", "", JsonVal.null⟩) =
      Except.error (ApiError.communication (Cause.clientResponseError 500)) :=
  c2_amended_http_status_check ⟨500, "", "", JsonVal.null⟩ (by decide) (by decide) (by decide)

/-- Claim C4: for every accepted response (status below 400 and not 401/403,
so neither check raises), `_api_wrapper` returns the parsed JSON body when
the Content-Type contains `application/json`; otherwise the synthetic record
with status `success` and the text body as message when the text body is
non-empty; otherwise Python `None`. Content parsing is reached only after
the status and authentication checks pass, which is expressed by the
acceptance hypothesis. -/
theorem c4_response_content_handling (r : Response)
    (hacc : r.status ≠ 401 ∧ r.status ≠ 403 ∧ r.status < 400) :
    (strContains r.contentType "application/json" = true →
        apiWrapper (Transport.response r) = Except.ok (some r.jsonBody)) ∧
    (strContains r.contentType "application/json" = false → r.text ≠ "" →
        apiWrapper (Transport.response r) =
          Except.ok (some (JsonVal.obj
            [("status", JsonVal.str "success"), ("message", JsonVal.str r.text)]))) ∧
    (strContains r.contentType "application/json" = false → r.text = "" →
        apiWrapper (Transport.response r) = Except.ok none) := by
  obtain ⟨h401, h403, hlt⟩ := hacc
  have hor : ¬ (r.status = 401 ∨ r.status = 403) := by
    rintro (h | h)
    exacts [h401 h, h403 h]
  simp only [apiWrapper, verifyResponseOrRaise]
  rw [if_neg hor, if_pos hlt]
  refine ⟨fun hct => ?_, fun hct hne => ?_, fun hct hemp => ?_⟩
  · rw [if_pos hct]
  · rw [if_neg (by simp [hct]), if_neg hne]
  · rw [if_neg (by simp [hct]), if_pos hemp]

/-- Claim C4 witness: a 200 JSON response returns its parsed body. -/
theorem c4_witness :
    apiWrapper (Transport.response
        ⟨200, "application/json; charset=utf-8", "raw", JsonVal.obj [("status", JsonVal.str "ready")]⟩) =
      Except.ok (some (JsonVal.obj [("status", JsonVal.str "ready")])) :=
  (c4_response_content_handling
      ⟨200, "application/json; charset=utf-8", "raw", JsonVal.obj [("status", JsonVal.str "ready")]⟩
      (by exact ⟨by decide, by decide, by decide⟩)).1 (by decide)

/-- Claim C3: for every poll, a successful `get_status` result replaces the
coordinator snapshot and clears the failure state; an authentication error
raises `ConfigEntryAuthFailed`; any other client error raises `UpdateFailed`
and the previously held snapshot stays unchanged and visible
(last-known-value semantics). -/
theorem c3_coordinator_refresh (st : CoordState) :
    (∀ v : Option JsonVal, coordinatorRefresh st (Except.ok v) = ⟨some v, none⟩) ∧
    (∀ msg : String,
        coordinatorRefresh st (Except.error (ApiError.authentication msg)) =
          ⟨st.data, some CoordSignal.configEntryAuthFailed⟩) ∧
    (∀ e : ApiError, e.isAuth = false →
        coordinatorRefresh st (Except.error e) =
          ⟨st.data, some CoordSignal.updateFailed⟩) := by
  refine ⟨fun v => rfl, fun msg => rfl, fun e he => ?_⟩
  cases e with
  | authentication m => simp [ApiError.isAuth] at he
  | communication c => rfl
  | generic c => rfl

/-- Claim C3 witness: starting from a held snapshot, a successful poll
replaces it, an authentication failure signals reauth, and a timeout keeps
the old snapshot while signalling a transient failure. -/
theorem c3_witness :
    coordinatorRefresh ⟨some (some (JsonVal.str "old")), none⟩
        (Except.ok (some (JsonVal.str "new"))) = ⟨some (some (JsonVal.str "new")), none⟩ ∧
    coordinatorRefresh ⟨some (some (JsonVal.str "old")), none⟩
        (Except.error (ApiError.authentication "Invalid credentials")) =
      ⟨some (some (JsonVal.str "old")), some CoordSignal.configEntryAuthFailed⟩ ∧
    coordinatorRefresh ⟨some (some (JsonVal.str "old")), none⟩
        (Except.error (ApiError.communication (Cause.timeoutError "timed out"))) =
      ⟨some (some (JsonVal.str "old")), some CoordSignal.updateFailed⟩ :=
  ⟨(c3_coordinator_refresh ⟨some (some (JsonVal.str "old")), none⟩).1 (some (JsonVal.str "new")),
   (c3_coordinator_refresh ⟨some (some (JsonVal.str "old")), none⟩).2.1 "Invalid credentials",
   (c3_coordinator_refresh ⟨some (some (JsonVal.str "old")), none⟩).2.2
     (ApiError.communication (Cause.timeoutError "timed out")) rfl⟩

/-- Claim C6 counterexample: the coordinator stores whatever `get_status`
returns without shape validation. A single successful poll whose response is
200 with a plain-text body `ok` makes `get_status` return the synthetic
record with status `success` and message `ok`; the coordinator stores it,
and that stored snapshot is not a fully-formed status dictionary (it has no
`printer` or `last_print` field). -/
theorem c6_counterexample :
    (coordinatorRefresh initialCoordState
        (apiWrapper (Transport.response ⟨200, "text/plain; charset=utf-8", "ok", JsonVal.null⟩))).data =
      some (some (JsonVal.obj [("status", JsonVal.str "success"), ("message", JsonVal.str "ok")])) ∧
    statusShape (JsonVal.obj [("status", JsonVal.str "success"), ("message", JsonVal.str "ok")]) = false :=
  ⟨rfl, rfl⟩

/-- If a state's snapshot is absent or fully-formed, one refresh whose
successful value (if any) is fully-formed preserves that property. -/
theorem coordinatorRefresh_shape (st : CoordState)
    (res : Except ApiError (Option JsonVal))
    (hst : st.data = none ∨ ∃ j, st.data = some (some j) ∧ statusShape j = true)
    (hres : ∀ v, res = Except.ok v → ∃ j, v = some j ∧ statusShape j = true) :
    (coordinatorRefresh st res).data = none ∨
      ∃ j, (coordinatorRefresh st res).data = some (some j) ∧ statusShape j = true := by
  cases res with
  | ok v =>
      obtain ⟨j, hj, hshape⟩ := hres v rfl
      exact Or.inr ⟨j, by simp [coordinatorRefresh, asyncUpdateData, hj], hshape⟩
  | error e =>
      cases e with
      | authentication m => exact hst
      | communication c => exact hst
      | generic c => exact hst

/-- Claim C6 (amended): the coordinator itself never manufactures a partial
snapshot — provided every successful `get_status` result over a run of polls
is a fully-formed status dictionary (the expected service behaviour; the code
performs no validation of its own), every reachable coordinator state holds
either no snapshot at all or a fully-formed one. -/
theorem c6_amended_snapshot_shape (results : List (Except ApiError (Option JsonVal)))
    (hful : ∀ v, Except.ok v ∈ results → ∃ j, v = some j ∧ statusShape j = true) :
    (runPolls initialCoordState results).data = none ∨
      ∃ j, (runPolls initialCoordState results).data = some (some j) ∧ statusShape j = true := by
  suffices h : ∀ (rs : List (Except ApiError (Option JsonVal))) (st : CoordState),
      (∀ v, Except.ok v ∈ rs → ∃ j, v = some j ∧ statusShape j = true) →
      (st.data = none ∨ ∃ j, st.data = some (some j) ∧ statusShape j = true) →
      (runPolls st rs).data = none ∨
        ∃ j, (runPolls st rs).data = some (some j) ∧ statusShape j = true by
    exact h results initialCoordState hful (Or.inl rfl)
  intro rs
  induction rs with
  | nil => intro st _ hst; exact hst
  | cons r rest ih =>
      intro st hfull hst
      exact ih (coordinatorRefresh st r)
        (fun v hv => hfull v (List.mem_cons_of_mem _ hv))
        (coordinatorRefresh_shape st r hst (fun v hv => hfull v (hv ▸ List.mem_cons_self _ _)))

/-- Claim C6 (amended) witness: a run of three polls — a fully-formed
success, a timeout failure, another fully-formed success — ends with a
fully-formed snapshot. -/
theorem c6_witness :
    (runPolls initialCoordState
        [Except.ok (some (JsonVal.obj
            [("status", JsonVal.str "ready"),
             ("printer", JsonVal.obj [("model", JsonVal.str "QL-800"), ("connected", JsonVal.bool true)]),
             ("last_print", JsonVal.str "2024-01-01T12:00:00Z")])),
         Except.error (ApiError.communication (Cause.timeoutError "timed out")),
         Except.ok (some (JsonVal.obj
            [("status", JsonVal.str "printing"),
             ("printer", JsonVal.obj [("model", JsonVal.str "QL-800"), ("connected", JsonVal.bool true)]),
             ("last_print", JsonVal.null)]))]).data = none ∨
      ∃ j, (runPolls initialCoordState
        [Except.ok (some (JsonVal.obj
            [("status", JsonVal.str "ready"),
             ("printer", JsonVal.obj [("model", JsonVal.str "QL-800"), ("connected", JsonVal.bool true)]),
             ("last_print", JsonVal.str "2024-01-01T12:00:00Z")])),
         Except.error (ApiError.communication (Cause.timeoutError "timed out")),
         Except.ok (some (JsonVal.obj
            [("status", JsonVal.str "printing"),
             ("printer", JsonVal.obj [("model", JsonVal.str "QL-800"), ("connected", JsonVal.bool true)]),
             ("last_print", JsonVal.null)]))]).data = some (some j) ∧ statusShape j = true := by
  apply c6_amended_snapshot_shape
  intro v hv
  simp only [List.mem_cons, List.not_mem_nil, or_false] at hv
  rcases hv with h | h | h
  · injection h with h2
    exact ⟨_, h2, rfl⟩
  · exact absurd h (by simp)
  · injection h with h2
    exact ⟨_, h2, rfl⟩

/-- The field names claim C5 lists for the default print-text payload:
the `text` field plus the 22 documented scalar fields. -/
def c5ClaimedKeys : List String :=
  ["text", "label_size", "orientation", "margin_top", "margin_bottom",
   "margin_left", "margin_right", "print_type", "barcode_type", "qrcode_size",
   "qrcode_correction", "image_bw_threshold", "image_mode", "image_fit",
   "print_count", "cut_once", "border_thickness", "border_roundness",
   "border_distance_x", "border_distance_y", "high_res",
   "image_scaling_factor", "image_rotation"]

/-- Claim C5 counterexample: the payload built by `async_print_text` with all
optional arguments at their defaults does not consist of exactly the fields
the claim lists — it additionally contains a `log_level` field (with value
`WARNING`, client.py line 171), which the claim's list omits. -/
theorem c5_counterexample :
    (asyncPrintTextData "hello" 100 "DejaVu Math TeX Gyre,Regular" "center" "100" []).map Prod.fst
        ≠ c5ClaimedKeys ∧
    "log_level" ∈
        (asyncPrintTextData "hello" 100 "DejaVu Math TeX Gyre,Regular" "center" "100" []).map Prod.fst ∧
    "log_level" ∉ c5ClaimedKeys := by
  refine ⟨by decide, by decide, by decide⟩

/-- Claim C5 (amended): with all optional arguments at their defaults, the
form payload of `async_print_text` holds exactly the documented default
field values plus `log_level="WARNING"`, and its `text` field is the
JSON-encoded single-element array of one object with keys font, size,
inverted, todo, align, line_spacing, color and text. -/
theorem c5_amended_default_payload (text : String) :
    asyncPrintTextData text 100 "DejaVu Math TeX Gyre,Regular" "center" "100" [] =
      [("text",
        "[\x7b\"font\": \"DejaVu Math TeX Gyre,Regular\", \"size\": \"100\", \"inverted\": false, \"todo\": false, \"align\": \"center\", \"line_spacing\": \"100\", \"color\": \"black\", \"text\": "
          ++ pyJsonStr text ++ "\x7d]"),
       ("label_size", "17x54"),
       ("orientation", "standard"),
       ("margin_top", "24"),
       ("margin_bottom", "24"),
       ("margin_left", "35"),
       ("margin_right", "35"),
       ("print_type", "text"),
       ("barcode_type", "QR"),
       ("qrcode_size", "10"),
       ("qrcode_correction", "L"),
       ("image_bw_threshold", "70"),
       ("image_mode", "grayscale"),
       ("image_fit", "1"),
       ("print_count", "1"),
       ("log_level", "WARNING"),
       ("cut_once", "0"),
       ("border_thickness", "0"),
       ("border_roundness", "0"),
       ("border_distance_x", "0"),
       ("border_distance_y", "0"),
       ("high_res", "0"),
       ("image_scaling_factor", "100"),
       ("image_rotation", "0")] := rfl

/-- The goober branch of `async_handle_set_font_size_preset`
(print_label.py lines 368-369 and 385-387), exposed as an equation. -/
theorem setFontSizePreset_goober (opts : Options) :
    setFontSizePreset opts (some "goober") =
      match pyIntOfOptVal ((opts.lookup "goober_font_size").getD (.int GOOBER_FONT_SIZE)) with
      | some n => Except.ok (setOption opts "current_font_size" (.int n))
      | none => Except.error "invalid literal for int() with base 10" := rfl

/-- The default branch of `async_handle_set_font_size_preset`
(print_label.py lines 370-371 and 385-387), exposed as an equation. -/
theorem setFontSizePreset_default (opts : Options) :
    setFontSizePreset opts (some "default") =
      match pyIntOfOptVal ((opts.lookup "default_font_size").getD (.int DEFAULT_FONT_SIZE)) with
      | some n => Except.ok (setOption opts "current_font_size" (.int n))
      | none => Except.error "invalid literal for int() with base 10" := rfl

/-- The numeric branch of `async_handle_set_font_size_preset`
(print_label.py lines 372-387), exposed as an equation. -/
theorem setFontSizePreset_numeric (opts : Options) (s : String)
    (hne : s ≠ "") (hg : pyLower s ≠ "goober") (hd : pyLower s ≠ "default") :
    setFontSizePreset opts (some s) =
      match pyIntParse s with
      | none => Except.error ("Invalid preset value: " ++ s)
      | some n =>
          if n < 10 ∨ 500 < n then
            Except.error ("Font size must be between 10 and 500, got " ++ toString n)
          else
            Except.ok (setOption opts "current_font_size" (.int n)) := by
  simp only [setFontSizePreset]
  rw [if_neg hne, if_neg hg, if_neg hd]

/-- Claim C7: in `set_font_size_preset`, preset `goober` resolves to the
configured `goober_font_size` option (default 20) and preset `default` to
the configured `default_font_size` option (default 50); a numeric preset
string whose value is outside 10..500 raises a `ValueError`, and since the
handler raises before `async_update_entry`, the stored `current_font_size`
is not changed. -/
theorem c7_font_size_preset (opts : Options) :
    (opts.lookup "goober_font_size" = none →
        setFontSizePreset opts (some "goober") =
          Except.ok (setOption opts "current_font_size" (OptVal.int 20))) ∧
    (∀ g : Int, opts.lookup "goober_font_size" = some (OptVal.int g) →
        setFontSizePreset opts (some "goober") =
          Except.ok (setOption opts "current_font_size" (OptVal.int g))) ∧
    (opts.lookup "default_font_size" = none →
        setFontSizePreset opts (some "default") =
          Except.ok (setOption opts "current_font_size" (OptVal.int 50))) ∧
    (∀ d : Int, opts.lookup "default_font_size" = some (OptVal.int d) →
        setFontSizePreset opts (some "default") =
          Except.ok (setOption opts "current_font_size" (OptVal.int d))) ∧
    (∀ (s : String) (n : Int), pyIntParse s = some n →
        pyLower s ≠ "goober" → pyLower s ≠ "default" →
        (n < 10 ∨ 500 < n) →
        setFontSizePreset opts (some s) =
          Except.error ("Font size must be between 10 and 500, got " ++ toString n)) := by
  refine ⟨fun h => ?_, fun g h => ?_, fun h => ?_, fun d h => ?_,
    fun s n hp hg hd hrange => ?_⟩
  · rw [setFontSizePreset_goober, h]; rfl
  · rw [setFontSizePreset_goober, h]; rfl
  · rw [setFontSizePreset_default, h]; rfl
  · rw [setFontSizePreset_default, h]; rfl
  · have hne : s ≠ "" := by
      intro he
      rw [he] at hp
      exact Option.noConfusion (show (none : Option Int) = some n from hp)
    rw [setFontSizePreset_numeric opts s hne hg hd, hp]
    exact if_pos hrange

/-- Claim C7 witness: with no options stored, preset `goober` stores 20 and
preset `default` stores 50; with configured options they store the
configured values; preset `501` raises the range error. -/
theorem c7_witness :
    setFontSizePreset [] (some "goober") = Except.ok [("current_font_size", OptVal.int 20)] ∧
    setFontSizePreset [("goober_font_size", OptVal.int 33)] (some "goober") =
      Except.ok [("goober_font_size", OptVal.int 33), ("current_font_size", OptVal.int 33)] ∧
    setFontSizePreset [] (some "default") = Except.ok [("current_font_size", OptVal.int 50)] ∧
    setFontSizePreset [("default_font_size", OptVal.int 77)] (some "default") =
      Except.ok [("default_font_size", OptVal.int 77), ("current_font_size", OptVal.int 77)] ∧
    setFontSizePreset [] (some "501") =
      Except.error "Font size must be between 10 and 500, got 501" :=
  ⟨(c7_font_size_preset []).1 rfl,
   (c7_font_size_preset [("goober_font_size", OptVal.int 33)]).2.1 33 rfl,
   (c7_font_size_preset []).2.2.1 rfl,
   (c7_font_size_preset [("default_font_size", OptVal.int 77)]).2.2.2.1 77 rfl,
   (c7_font_size_preset []).2.2.2.2 "501" 501 rfl (by decide) (by decide)
     (Or.inr (by norm_num))⟩

/-- Claim C8: with `treat_400_as_success` truthy, a print-text operation
whose underlying request failed with an HTTP 400 — which the client raises
as a `BrotherQLApiClientCommunicationError` whose cause is the
`ClientResponseError` with status 400, never suppressing it itself — is
reported as success by the print handler, with no exception surfacing. -/
theorem c8_treat_400_suppression (opts : Options) (text : String)
    (htext : text ≠ "") (hopt : pyTruthy (treat400Setting opts) = true) :
    (∀ r : Response, r.status = 400 →
        apiWrapper (Transport.response r) =
          Except.error (ApiError.communication (Cause.clientResponseError 400))) ∧
    asyncHandlePrintText opts text
        (Except.error (ApiError.communication (Cause.clientResponseError 400))) =
      HandlerResult.success := by
  constructor
  · intro r hr
    simp only [apiWrapper, verifyResponseOrRaise]
    rw [if_neg (by rw [hr]; decide), if_neg (by rw [hr]; decide), hr]
  · simp only [asyncHandlePrintText]
    rw [if_neg htext]
    simp [hopt, is400Error]

/-- Claim C8 witness: with the option explicitly set to true, a 400 response
is raised by the client as the communication error with causal status 400,
and the print handler reports success on it. -/
theorem c8_witness :
    ("birthday label" : String) ≠ "" ∧
    pyTruthy (treat400Setting [("treat_400_as_success", OptVal.bool true)]) = true ∧
    apiWrapper (Transport.response ⟨400, "text/html", "bad request", JsonVal.null⟩) =
      Except.error (ApiError.communication (Cause.clientResponseError 400)) ∧
    asyncHandlePrintText [("treat_400_as_success", OptVal.bool true)] "birthday label"
        (Except.error (ApiError.communication (Cause.clientResponseError 400))) =
      HandlerResult.success := by
  refine ⟨by decide, rfl, ?_, ?_⟩
  · exact (c8_treat_400_suppression [("treat_400_as_success", OptVal.bool true)]
      "birthday label" (by decide) rfl).1 ⟨400, "text/html", "bad request", JsonVal.null⟩ rfl
  · exact (c8_treat_400_suppression [("treat_400_as_success", OptVal.bool true)]
      "birthday label" (by decide) rfl).2

/-- Claim C9: when `treat_400_as_success` has never been stored in the
entry's options, the print handler evaluates it as true and the switch
entity reports on, so HTTP 400 print failures are suppressed by default
without the user having opted in. -/
theorem c9_default_treat_400_true (opts : Options)
    (h : opts.lookup "treat_400_as_success" = none) :
    treat400Setting opts = OptVal.bool true ∧
    switchIsOn opts = OptVal.bool true ∧
    (∀ text : String, text ≠ "" →
        asyncHandlePrintText opts text
            (Except.error (ApiError.communication (Cause.clientResponseError 400))) =
          HandlerResult.success) := by
  have ht : treat400Setting opts = OptVal.bool true := by
    simp [treat400Setting, h]
  refine ⟨ht, by simp [switchIsOn, h], fun text htext => ?_⟩
  simp only [asyncHandlePrintText]
  rw [if_neg htext]
  simp [ht, pyTruthy, is400Error]

/-- Claim C9 witness: with an empty options store the default is on and a
400 print failure is suppressed. -/
theorem c9_witness :
    treat400Setting [] = OptVal.bool true ∧
    switchIsOn [] = OptVal.bool true ∧
    asyncHandlePrintText [] "hello"
        (Except.error (ApiError.communication (Cause.clientResponseError 400))) =
      HandlerResult.success :=
  ⟨(c9_default_treat_400_true [] rfl).1,
   (c9_default_treat_400_true [] rfl).2.1,
   (c9_default_treat_400_true [] rfl).2.2 "hello" (by decide)⟩

/-- Claim C10: the 10..500 range validation applies only to numeric preset
strings — the named presets `goober` and `default` store whatever the
configured option values are without any range check, and `set_font_size`
stores any provided integer without range validation, raising only when the
parameter is missing. -/
theorem c10_range_check_only_numeric (opts : Options) :
    (∀ v : Int, opts.lookup "goober_font_size" = some (OptVal.int v) →
        setFontSizePreset opts (some "goober") =
          Except.ok (setOption opts "current_font_size" (OptVal.int v))) ∧
    (∀ v : Int, opts.lookup "default_font_size" = some (OptVal.int v) →
        setFontSizePreset opts (some "default") =
          Except.ok (setOption opts "current_font_size" (OptVal.int v))) ∧
    (∀ n : Int, setFontSize opts (some n) =
        Except.ok (setOption opts "current_font_size" (OptVal.int n))) ∧
    setFontSize opts none = Except.error "Font size parameter is required" := by
  refine ⟨fun v h => ?_, fun v h => ?_, fun n => rfl, rfl⟩
  · rw [setFontSizePreset_goober, h]; rfl
  · rw [setFontSizePreset_default, h]; rfl

/-- Claim C10 witness: an out-of-range configured goober value 9999 is
stored by the named preset, `set_font_size` stores the out-of-range value
100000, and a missing `font_size` raises. -/
theorem c10_witness :
    setFontSizePreset [("goober_font_size", OptVal.int 9999)] (some "goober") =
      Except.ok [("goober_font_size", OptVal.int 9999), ("current_font_size", OptVal.int 9999)] ∧
    setFontSizePreset [("default_font_size", OptVal.int 0)] (some "default") =
      Except.ok [("default_font_size", OptVal.int 0), ("current_font_size", OptVal.int 0)] ∧
    setFontSize [] (some 100000) = Except.ok [("current_font_size", OptVal.int 100000)] ∧
    setFontSize [] none = Except.error "Font size parameter is required" :=
  ⟨(c10_range_check_only_numeric [("goober_font_size", OptVal.int 9999)]).1 9999 rfl,
   (c10_range_check_only_numeric [("default_font_size", OptVal.int 0)]).2.1 0 rfl,
   (c10_range_check_only_numeric []).2.2.1 100000,
   (c10_range_check_only_numeric []).2.2.2⟩

end BrotherQL
